import Mathlib

/-! Shallow embedding of the two Docker Compose wrapper scripts of the
convex-poc repository: `src/deploy.py` (class `DeployManager`, namespace
`DeployPy` below) and `src/scripts/deploy.py` (plain functions, namespace
`ScriptsPy` below).

External process execution is modelled by a `World`: whether the external
tool binary can be located (`available`; `subprocess.run` raises
`FileNotFoundError` exactly when it cannot) and, per command line, what
happens while the child runs (`ExecEvent`): the child exits with some
code, the user interrupts (`KeyboardInterrupt`), or some other exception
is raised.  Child exit codes are modelled as `Int`, as in Python's
`CompletedProcess.returncode`.

The argparse configurations of the two scripts are modelled token by
token.  An option that expects a value (`-f`/`--file` in `src/deploy.py`)
consumes the following token, and rejects a following token that looks
like another option, as argparse does ("expected one argument").  The
`--opt=value` and attached short-value spellings and option
abbreviations of argparse are not used by any input considered in this
development and are not modelled.  A parse failure is `ParseExit.usage`
(argparse prints usage and exits with code 2); `-h`/`--help` is
`ParseExit.help` (exit code 0).  In both cases no external command is
run, since `parse_args` is called before anything else happens. -/

namespace ConvexPoc

/-- Equality of `Except` values is decidable when it is on both sides. -/
instance instDecEqExcept {ε α : Type} [DecidableEq ε] [DecidableEq α] :
    DecidableEq (Except ε α)
  | Except.error a, Except.error b =>
      if h : a = b then Decidable.isTrue (by rw [h])
      else Decidable.isFalse (by intro hc; cases hc; exact h rfl)
  | Except.error _, Except.ok _ => Decidable.isFalse (by intro hc; cases hc)
  | Except.ok _, Except.error _ => Decidable.isFalse (by intro hc; cases hc)
  | Except.ok a, Except.ok b =>
      if h : a = b then Decidable.isTrue (by rw [h])
      else Decidable.isFalse (by intro hc; cases hc; exact h rfl)

/-- What happens while a child process runs, given that the binary was
found: it exits with a code, the user hits Ctrl-C, or `subprocess.run`
raises some other exception. -/
inductive ExecEvent where
  | exited (code : Int)
  | interrupted
  | raisedOther
deriving DecidableEq

/-- The outcome of attempting to execute a command: `notFound` is the
`FileNotFoundError` case (binary not locatable), the rest as in
`ExecEvent`. -/
inductive ExecOutcome where
  | notFound
  | exited (code : Int)
  | interrupted
  | raisedOther
deriving DecidableEq

/-- The environment the wrapper runs in: whether the external binary is
on the PATH, and what each issued command line does when run. -/
structure World where
  available : Bool
  outcome : List String → ExecEvent

/-- Attempt to execute `cmd` in world `w` (the semantics of
`subprocess.run`): `FileNotFoundError` exactly when the binary is
absent, otherwise whatever the child does. -/
def runW (w : World) (cmd : List String) : ExecOutcome :=
  if w.available then
    match w.outcome cmd with
    | ExecEvent.exited c => ExecOutcome.exited c
    | ExecEvent.interrupted => ExecOutcome.interrupted
    | ExecEvent.raisedOther => ExecOutcome.raisedOther
  else
    ExecOutcome.notFound

/-- How argparse terminates the process without running the program
body: usage error (exit code 2) or help text (exit code 0). -/
inductive ParseExit where
  | usage
  | help
deriving DecidableEq

/-- Python's `s.startswith("-")`: whether the first character is a
dash.  (Also how argparse decides that a token looks like an option.) -/
def dash_leading (s : String) : Bool :=
  match s.data with
  | [] => false
  | c :: _ => c = '-'

namespace DeployPy

/-- The error taxonomy of `src/deploy.py`'s top level `main`:
`DockerComposeError` is raised with a "Docker Compose not found" message
on `FileNotFoundError` (tool unavailable) and with a "Command failed"
message on `CalledProcessError` (child exited non-zero under
`check=True`); `KeyboardInterrupt` and any other exception are caught
separately. -/
inductive TopError where
  | toolUnavailable
  | commandFailed (cmd : List String)
  | interrupt
  | unexpected
deriving DecidableEq

/-- `DeployManager` of `src/deploy.py`: holds the compose file path. -/
structure DeployManager where
  compose_file : String
deriving DecidableEq

/-- `self.base_cmd = ["docker", "compose", "-f", self.compose_file]`. -/
def DeployManager.base_cmd (m : DeployManager) : List String :=
  ["docker", "compose", "-f", m.compose_file]

/-- `DeployManager._run_command`: runs `command`; `CalledProcessError`
(raised by `subprocess.run` iff `check` and the exit code is non-zero)
becomes `commandFailed`, `FileNotFoundError` becomes `toolUnavailable`;
interrupts and other exceptions propagate to `main`'s handlers. -/
def run_command (w : World) (cmd : List String) (check : Bool) :
    Except TopError Int :=
  match runW w cmd with
  | ExecOutcome.exited c =>
      if check && c != 0 then Except.error (TopError.commandFailed cmd)
      else Except.ok c
  | ExecOutcome.notFound => Except.error TopError.toolUnavailable
  | ExecOutcome.interrupted => Except.error TopError.interrupt
  | ExecOutcome.raisedOther => Except.error TopError.unexpected

/-- `DeployManager.status`: run `base_cmd + ["ps"]` with `check=False`.
Returns the list of command lines handed to `subprocess.run` together
with the control-flow result. -/
def DeployManager.status (m : DeployManager) (w : World) :
    List (List String) × Except TopError Unit :=
  let cmd := m.base_cmd ++ ["ps"]
  ([cmd], (run_command w cmd false).map fun _ => ())

/-- `DeployManager.up`: run `base_cmd + ["up"]` (plus `"-d"` when
`detached`) with `check=True`; on success, fall through to
`self.status()`. -/
def DeployManager.up (m : DeployManager) (w : World) (detached : Bool) :
    List (List String) × Except TopError Unit :=
  let cmd := m.base_cmd ++ ["up"] ++ (if detached then ["-d"] else [])
  match run_command w cmd true with
  | Except.error e => ([cmd], Except.error e)
  | Except.ok _ =>
      let s := m.status w
      (cmd :: s.1, s.2)

/-- `DeployManager.down`: run `base_cmd + ["down"]` (plus `"-v"` when
`volumes`) with `check=True`. -/
def DeployManager.down (m : DeployManager) (w : World) (volumes : Bool) :
    List (List String) × Except TopError Unit :=
  let cmd := m.base_cmd ++ ["down"] ++ (if volumes then ["-v"] else [])
  match run_command w cmd true with
  | Except.error e => ([cmd], Except.error e)
  | Except.ok _ => ([cmd], Except.ok ())

/-- `DeployManager.restart`: run `base_cmd + ["restart"]` with
`check=True`; on success, fall through to `self.status()`. -/
def DeployManager.restart (m : DeployManager) (w : World) :
    List (List String) × Except TopError Unit :=
  let cmd := m.base_cmd ++ ["restart"]
  match run_command w cmd true with
  | Except.error e => ([cmd], Except.error e)
  | Except.ok _ =>
      let s := m.status w
      (cmd :: s.1, s.2)

/-- `DeployManager.logs`: run `base_cmd + ["logs"]`, plus `"-f"` when
`follow`, plus the service token when a truthy (non-`None`, non-empty)
service was given; `check=False`. -/
def DeployManager.logs (m : DeployManager) (w : World)
    (service : Option String) (follow : Bool) :
    List (List String) × Except TopError Unit :=
  let cmd := m.base_cmd ++ ["logs"] ++ (if follow then ["-f"] else []) ++
    (match service with
     | some s => if s = "" then [] else [s]
     | none => [])
  ([cmd], (run_command w cmd false).map fun _ => ())

/-- Parsed arguments of `src/deploy.py`: positional `command`,
`-f`/`--file` (value, default `docker-compose.yml`), `-v`/`--volumes`
(store_true), `--follow` (store_true). -/
structure Args where
  command : String
  file : String
  volumes : Bool
  follow : Bool
deriving DecidableEq

/-- The `choices` of the positional `command` argument. -/
def choices : List String := ["up", "down", "restart", "status", "logs"]

/-- The argparse loop of `src/deploy.py`, one token per step.  `pos`
accumulates positional tokens, `pending` records that the previous token
was `-f`/`--file` and a value is expected (a following option-like token
is rejected, as argparse does).  At the end exactly one positional, a
member of `choices`, must have been seen. -/
def parse_args : List String → List String → String → Bool → Bool → Bool →
    Except ParseExit Args
  | [], pos, file, vol, fol, pending =>
      if pending then Except.error ParseExit.usage
      else
        match pos with
        | [cmd] =>
            if cmd ∈ choices then Except.ok ⟨cmd, file, vol, fol⟩
            else Except.error ParseExit.usage
        | _ => Except.error ParseExit.usage
  | tok :: rest, pos, file, vol, fol, pending =>
      if pending then
        if dash_leading tok then Except.error ParseExit.usage
        else parse_args rest pos tok vol fol false
      else if tok = "-h" ∨ tok = "--help" then Except.error ParseExit.help
      else if tok = "-f" ∨ tok = "--file" then
        parse_args rest pos file vol fol true
      else if tok = "-v" ∨ tok = "--volumes" then
        parse_args rest pos file true fol false
      else if tok = "--follow" then
        parse_args rest pos file vol true false
      else if tok = "-" then
        parse_args rest (pos ++ [tok]) file vol fol false
      else if dash_leading tok then Except.error ParseExit.usage
      else parse_args rest (pos ++ [tok]) file vol fol false

/-- The service-name heuristic of `src/deploy.py`'s `logs` branch:
`sys.argv[-1]` is taken as the service when `len(sys.argv) > 2` and the
final token does not start with `-`.  Here `argv` excludes the program
name, so the length threshold is `> 1`. -/
def service_of (argv : List String) : Option String :=
  if argv.length > 1 then
    let p := argv.getLastD ""
    if dash_leading p then none else some p
  else none

/-- How `src/deploy.py`'s `main` ends: argparse usage error, argparse
help, or the body ran to some control-flow result. -/
inductive MainOutcome where
  | usageError
  | helpShown
  | ran (r : Except TopError Unit)
deriving DecidableEq

/-- Result of a run of `src/deploy.py`: every command line handed to
`subprocess.run`, in order, and how `main` ended. -/
structure MainOut where
  trace : List (List String)
  outcome : MainOutcome
deriving DecidableEq

/-- The process exit code: argparse exits 2 on usage error and 0 after
help; the body's try/except maps success to 0 (falling off `main`),
`DockerComposeError` to `sys.exit(1)`, `KeyboardInterrupt` to
`sys.exit(130)` and any other exception to `sys.exit(1)`. -/
def exit_code : MainOutcome → Int
  | MainOutcome.usageError => 2
  | MainOutcome.helpShown => 0
  | MainOutcome.ran (Except.ok _) => 0
  | MainOutcome.ran (Except.error TopError.toolUnavailable) => 1
  | MainOutcome.ran (Except.error (TopError.commandFailed _)) => 1
  | MainOutcome.ran (Except.error TopError.interrupt) => 130
  | MainOutcome.ran (Except.error TopError.unexpected) => 1

/-- The lines `main` prints to `sys.stderr`: each handled exception
prints exactly one message there. -/
def stderr_of : MainOutcome → List String
  | MainOutcome.ran (Except.error TopError.toolUnavailable) =>
      ["Error: Docker Compose not found. Please ensure Docker is installed."]
  | MainOutcome.ran (Except.error (TopError.commandFailed cmd)) =>
      ["Error: Command failed: " ++ String.intercalate " " cmd]
  | MainOutcome.ran (Except.error TopError.interrupt) =>
      ["Operation cancelled by user."]
  | MainOutcome.ran (Except.error TopError.unexpected) =>
      ["Unexpected error"]
  | _ => []

/-- The `if/elif` dispatch of `src/deploy.py`'s `main` after parsing:
builds the `DeployManager` from `args.file` and calls the method for
`args.command` (the final `elif` leaves `logs`; an unmatched command
would fall through and exit normally). -/
def dispatch (argv : List String) (w : World) (args : Args) :
    List (List String) × Except TopError Unit :=
  let m : DeployManager := ⟨args.file⟩
  if args.command = "up" then m.up w true
  else if args.command = "down" then m.down w args.volumes
  else if args.command = "restart" then m.restart w
  else if args.command = "status" then m.status w
  else if args.command = "logs" then m.logs w (service_of argv) args.follow
  else ([], Except.ok ())

/-- `main` of `src/deploy.py`: parse, then dispatch inside the
try/except. -/
def main (argv : List String) (w : World) : MainOut :=
  match parse_args argv [] "docker-compose.yml" false false false with
  | Except.error ParseExit.usage => ⟨[], MainOutcome.usageError⟩
  | Except.error ParseExit.help => ⟨[], MainOutcome.helpShown⟩
  | Except.ok args =>
      let run := dispatch argv w args
      ⟨run.1, MainOutcome.ran run.2⟩

/-- The wrapper's own exit code for a run. -/
def MainOut.exitCode (r : MainOut) : Int := exit_code r.outcome

/-- The wrapper's stderr output for a run. -/
def MainOut.stderrLines (r : MainOut) : List String := stderr_of r.outcome

end DeployPy

namespace ScriptsPy

/-- Exceptions that `src/scripts/deploy.py` does not catch anywhere:
`KeyboardInterrupt` and anything other than `CalledProcessError` /
`FileNotFoundError` raised by `subprocess.run`. -/
inductive Unhandled where
  | interrupt
  | other
deriving DecidableEq

/-- `run_command` of `src/scripts/deploy.py`: returns `True` iff the
child exited 0 (`check=True` raises `CalledProcessError` on non-zero,
caught and turned into `False`); `FileNotFoundError` is also caught and
turned into `False`; everything else propagates. -/
def run_command (w : World) (cmd : List String) : Except Unhandled Bool :=
  match runW w cmd with
  | ExecOutcome.exited c => if c = 0 then Except.ok true else Except.ok false
  | ExecOutcome.notFound => Except.ok false
  | ExecOutcome.interrupted => Except.error Unhandled.interrupt
  | ExecOutcome.raisedOther => Except.error Unhandled.other

/-- `deploy_up`: `["docker", "compose", "up"]` plus `"-d"` when
`detach`. -/
def deploy_up (w : World) (detach : Bool) :
    List (List String) × Except Unhandled Bool :=
  let cmd := ["docker", "compose", "up"] ++ (if detach then ["-d"] else [])
  ([cmd], run_command w cmd)

/-- `deploy_down`: `["docker", "compose", "down"]`; no volume handling
exists in this script. -/
def deploy_down (w : World) : List (List String) × Except Unhandled Bool :=
  let cmd := ["docker", "compose", "down"]
  ([cmd], run_command w cmd)

/-- `deploy_status`: `["docker", "compose", "ps"]`. -/
def deploy_status (w : World) : List (List String) × Except Unhandled Bool :=
  let cmd := ["docker", "compose", "ps"]
  ([cmd], run_command w cmd)

/-- `deploy_logs`: `["docker", "compose", "logs"]`, plus `"-f"` when
`follow`, plus the service token when a truthy service was given. -/
def deploy_logs (w : World) (service : Option String) (follow : Bool) :
    List (List String) × Except Unhandled Bool :=
  let cmd := ["docker", "compose", "logs"] ++ (if follow then ["-f"] else []) ++
    (match service with
     | some s => if s = "" then [] else [s]
     | none => [])
  ([cmd], run_command w cmd)

/-- Parsed arguments of `src/scripts/deploy.py`: positional `action`,
`--no-detach` (store_true), `-f`/`--follow` (store_true). -/
structure SArgs where
  action : String
  no_detach : Bool
  follow : Bool
deriving DecidableEq

/-- The `choices` of the positional `action` argument; note the absence
of `restart`. -/
def s_choices : List String := ["up", "down", "status", "logs"]

/-- The argparse loop of `src/scripts/deploy.py`, one token per step; no
option takes a value here. -/
def parse_args : List String → List String → Bool → Bool →
    Except ParseExit SArgs
  | [], pos, nd, fol =>
      match pos with
      | [a] =>
          if a ∈ s_choices then Except.ok ⟨a, nd, fol⟩
          else Except.error ParseExit.usage
      | _ => Except.error ParseExit.usage
  | tok :: rest, pos, nd, fol =>
      if tok = "-h" ∨ tok = "--help" then Except.error ParseExit.help
      else if tok = "--no-detach" then parse_args rest pos true fol
      else if tok = "-f" ∨ tok = "--follow" then parse_args rest pos nd true
      else if tok = "-" then parse_args rest (pos ++ [tok]) nd fol
      else if dash_leading tok then Except.error ParseExit.usage
      else parse_args rest (pos ++ [tok]) nd fol

/-- Result of a run of `src/scripts/deploy.py`: the command lines handed
to `subprocess.run` and either the process exit code or an unhandled
exception. -/
structure SMainOut where
  trace : List (List String)
  outcome : Except Unhandled Int
deriving DecidableEq

/-- The `if/elif` dispatch of `src/scripts/deploy.py`'s `main`: note
that the `logs` branch never passes a service name, and the final `else`
(unreachable thanks to `choices`) prints help and sets `success =
False`. -/
def dispatch (w : World) (args : SArgs) :
    List (List String) × Except Unhandled Bool :=
  if args.action = "up" then deploy_up w (!args.no_detach)
  else if args.action = "down" then deploy_down w
  else if args.action = "status" then deploy_status w
  else if args.action = "logs" then
    if args.follow then deploy_logs w none true
    else deploy_logs w none false
  else ([], Except.ok false)

/-- `main` of `src/scripts/deploy.py`: parse, dispatch, then
`sys.exit(0 if success else 1)`. -/
def main (argv : List String) (w : World) : SMainOut :=
  match parse_args argv [] false false with
  | Except.error ParseExit.usage => ⟨[], Except.ok 2⟩
  | Except.error ParseExit.help => ⟨[], Except.ok 0⟩
  | Except.ok args =>
      let run := dispatch w args
      ⟨run.1, run.2.map fun success => if success then (0 : Int) else 1⟩

end ScriptsPy

/-- A world where the tool is present and every command exits 0. -/
def w0 : World := ⟨true, fun _ => ExecEvent.exited 0⟩

/-- A world where the tool is present and every command exits 2. -/
def w2 : World := ⟨true, fun _ => ExecEvent.exited 2⟩

/-- A world where the tool is present and every command exits 7. -/
def w7 : World := ⟨true, fun _ => ExecEvent.exited 7⟩

/-- A world where the tool binary is absent. -/
def wNoTool : World := ⟨false, fun _ => ExecEvent.exited 0⟩

/-- A world where every command is interrupted by the user. -/
def wStop : World := ⟨true, fun _ => ExecEvent.interrupted⟩

/-- The `up -d` command line built by `src/deploy.py` with the default
compose file. -/
def upCmdD : List String :=
  ["docker", "compose", "-f", "docker-compose.yml", "up", "-d"]

/-- The `ps` command line built by `src/deploy.py` with the default
compose file. -/
def psCmdD : List String :=
  ["docker", "compose", "-f", "docker-compose.yml", "ps"]

/-- The `restart` command line built by `src/deploy.py` with the default
compose file. -/
def restartCmdD : List String :=
  ["docker", "compose", "-f", "docker-compose.yml", "restart"]

/-- The `logs` command line built by `src/deploy.py` with the default
compose file, no follow, no service. -/
def logsCmdD : List String :=
  ["docker", "compose", "-f", "docker-compose.yml", "logs"]

/-- The `down` command line built by `src/deploy.py` with the default
compose file, without volumes. -/
def downCmdD : List String :=
  ["docker", "compose", "-f", "docker-compose.yml", "down"]

/-- The detached `up` command line built by `src/scripts/deploy.py`. -/
def sUpCmdD : List String := ["docker", "compose", "up", "-d"]

lemma runW_exited_inv {w : World} {cmd : List String} {c : Int}
    (h : runW w cmd = ExecOutcome.exited c) :
    w.available = true ∧ w.outcome cmd = ExecEvent.exited c := by
  unfold runW at h
  cases hav : w.available with
  | false => rw [hav] at h; simp at h
  | true =>
      rw [hav] at h
      refine ⟨rfl, ?_⟩
      cases ho : w.outcome cmd with
      | exited c2 => rw [ho] at h; simp_all
      | interrupted => rw [ho] at h; simp at h
      | raisedOther => rw [ho] at h; simp at h

lemma main_up_unfold (w : World) :
    DeployPy.main ["up"] w =
      ⟨(DeployPy.DeployManager.up ⟨"docker-compose.yml"⟩ w true).1,
       DeployPy.MainOutcome.ran
         ((DeployPy.DeployManager.up ⟨"docker-compose.yml"⟩ w true).2)⟩ := rfl

lemma main_restart_unfold (w : World) :
    DeployPy.main ["restart"] w =
      ⟨(DeployPy.DeployManager.restart ⟨"docker-compose.yml"⟩ w).1,
       DeployPy.MainOutcome.ran
         ((DeployPy.DeployManager.restart ⟨"docker-compose.yml"⟩ w).2)⟩ := rfl

lemma main_status_unfold (w : World) :
    DeployPy.main ["status"] w =
      ⟨(DeployPy.DeployManager.status ⟨"docker-compose.yml"⟩ w).1,
       DeployPy.MainOutcome.ran
         ((DeployPy.DeployManager.status ⟨"docker-compose.yml"⟩ w).2)⟩ := rfl

lemma main_logs_unfold (w : World) :
    DeployPy.main ["logs"] w =
      ⟨(DeployPy.DeployManager.logs ⟨"docker-compose.yml"⟩ w none false).1,
       DeployPy.MainOutcome.ran
         ((DeployPy.DeployManager.logs ⟨"docker-compose.yml"⟩ w none false).2)⟩ :=
  rfl

lemma up_cases (w : World) :
    DeployPy.DeployManager.up ⟨"docker-compose.yml"⟩ w true =
      (match DeployPy.run_command w upCmdD true with
       | Except.error e => ([upCmdD], Except.error e)
       | Except.ok _ =>
           (upCmdD :: (DeployPy.DeployManager.status ⟨"docker-compose.yml"⟩ w).1,
            (DeployPy.DeployManager.status ⟨"docker-compose.yml"⟩ w).2)) := rfl

lemma restart_cases (w : World) :
    DeployPy.DeployManager.restart ⟨"docker-compose.yml"⟩ w =
      (match DeployPy.run_command w restartCmdD true with
       | Except.error e => ([restartCmdD], Except.error e)
       | Except.ok _ =>
           (restartCmdD ::
              (DeployPy.DeployManager.status ⟨"docker-compose.yml"⟩ w).1,
            (DeployPy.DeployManager.status ⟨"docker-compose.yml"⟩ w).2)) := rfl

lemma status_cases (w : World) :
    DeployPy.DeployManager.status ⟨"docker-compose.yml"⟩ w =
      ([psCmdD], (DeployPy.run_command w psCmdD false).map fun _ => ()) := rfl

lemma logs_cases (w : World) :
    DeployPy.DeployManager.logs ⟨"docker-compose.yml"⟩ w none false =
      ([logsCmdD], (DeployPy.run_command w logsCmdD false).map fun _ => ()) := rfl

lemma main_down_unfold (w : World) :
    DeployPy.main ["down"] w =
      ⟨(DeployPy.DeployManager.down ⟨"docker-compose.yml"⟩ w false).1,
       DeployPy.MainOutcome.ran
         ((DeployPy.DeployManager.down ⟨"docker-compose.yml"⟩ w false).2)⟩ := rfl

lemma down_cases (w : World) :
    DeployPy.DeployManager.down ⟨"docker-compose.yml"⟩ w false =
      (match DeployPy.run_command w downCmdD true with
       | Except.error e => ([downCmdD], Except.error e)
       | Except.ok _ => ([downCmdD], Except.ok ())) := rfl

lemma s_main_up_unfold (w : World) :
    ScriptsPy.main ["up"] w =
      ⟨(ScriptsPy.deploy_up w true).1,
       (ScriptsPy.deploy_up w true).2.map
         fun success => if success then (0 : Int) else 1⟩ := rfl

lemma s_up_cases (w : World) :
    ScriptsPy.deploy_up w true = ([sUpCmdD], ScriptsPy.run_command w sUpCmdD) :=
  rfl

/-- C1: for the up and restart actions of `src/deploy.py`, a `ps`
invocation is issued iff the preceding invocation succeeded; a
successful default-detach `up` yields exactly the two invocations
`up -d` then `ps` and exit code 0; a failed first invocation issues no
`ps`. -/
theorem C1_status_follows_success (w : World) :
    (psCmdD ∈ (DeployPy.main ["up"] w).trace ↔
      runW w upCmdD = ExecOutcome.exited 0) ∧
    (psCmdD ∈ (DeployPy.main ["restart"] w).trace ↔
      runW w restartCmdD = ExecOutcome.exited 0) ∧
    (runW w upCmdD = ExecOutcome.exited 0 →
      (∃ c, w.outcome psCmdD = ExecEvent.exited c) →
      (DeployPy.main ["up"] w).trace = [upCmdD, psCmdD] ∧
      (DeployPy.main ["up"] w).exitCode = 0) ∧
    (∀ c, c ≠ 0 → runW w upCmdD = ExecOutcome.exited c →
      (DeployPy.main ["up"] w).trace = [upCmdD] ∧
      (DeployPy.main ["up"] w).exitCode = 1) := by
  have hne_up : psCmdD ≠ upCmdD := by decide
  have hne_re : psCmdD ≠ restartCmdD := by decide
  rw [main_up_unfold, main_restart_unfold, up_cases, restart_cases, status_cases]
  refine ⟨?_, ?_, ?_, ?_⟩
  · rcases hr : runW w upCmdD with _ | c | _ | _
    · simp [DeployPy.run_command, hr, hne_up]
    · by_cases hc : c = 0
      · subst hc; simp [DeployPy.run_command, hr]
      · simp [DeployPy.run_command, hr, hc, hne_up]
    · simp [DeployPy.run_command, hr, hne_up]
    · simp [DeployPy.run_command, hr, hne_up]
  · rcases hr : runW w restartCmdD with _ | c | _ | _
    · simp [DeployPy.run_command, hr, hne_re]
    · by_cases hc : c = 0
      · subst hc; simp [DeployPy.run_command, hr]
      · simp [DeployPy.run_command, hr, hc, hne_re]
    · simp [DeployPy.run_command, hr, hne_re]
    · simp [DeployPy.run_command, hr, hne_re]
  · rintro hr ⟨c, hps⟩
    obtain ⟨hav, _⟩ := runW_exited_inv hr
    have hpsW : runW w psCmdD = ExecOutcome.exited c := by
      simp [runW, hav, hps]
    simp [DeployPy.run_command, hr, hpsW, DeployPy.MainOut.exitCode,
      DeployPy.exit_code, Except.map]
  · intro c hc hr
    simp [DeployPy.run_command, hr, hc, DeployPy.MainOut.exitCode,
      DeployPy.exit_code]

/-- Witness for C1: with the tool present and every command exiting 0,
`up` issues exactly `up -d` then `ps` and the wrapper exits 0. -/
theorem C1_witness :
    (DeployPy.main ["up"] w0).trace = [upCmdD, psCmdD] ∧
    (DeployPy.main ["up"] w0).exitCode = 0 :=
  (C1_status_follows_success w0).2.2.1 (by decide) ⟨0, by decide⟩


/-- C8: for the status and logs actions of `src/deploy.py`, a non-zero
child exit code raises no CommandFailed and the wrapper still exits 0;
only a missing tool binary (ToolUnavailable) makes these actions fail
(exit 1). -/
theorem C8_status_logs_ignore_child_exit (w : World) :
    (∀ c, w.available = true → w.outcome psCmdD = ExecEvent.exited c →
      (DeployPy.main ["status"] w).outcome =
        DeployPy.MainOutcome.ran (Except.ok ()) ∧
      (DeployPy.main ["status"] w).exitCode = 0) ∧
    (∀ c, w.available = true → w.outcome logsCmdD = ExecEvent.exited c →
      (DeployPy.main ["logs"] w).outcome =
        DeployPy.MainOutcome.ran (Except.ok ()) ∧
      (DeployPy.main ["logs"] w).exitCode = 0) ∧
    (w.available = false →
      (DeployPy.main ["status"] w).outcome =
        DeployPy.MainOutcome.ran (Except.error DeployPy.TopError.toolUnavailable) ∧
      (DeployPy.main ["status"] w).exitCode = 1 ∧
      (DeployPy.main ["logs"] w).outcome =
        DeployPy.MainOutcome.ran (Except.error DeployPy.TopError.toolUnavailable) ∧
      (DeployPy.main ["logs"] w).exitCode = 1) := by
  rw [main_status_unfold, main_logs_unfold, status_cases, logs_cases]
  refine ⟨?_, ?_, ?_⟩
  · intro c hav hps
    have hW : runW w psCmdD = ExecOutcome.exited c := by simp [runW, hav, hps]
    simp [DeployPy.run_command, hW, DeployPy.MainOut.exitCode,
      DeployPy.exit_code, Except.map]
  · intro c hav hlg
    have hW : runW w logsCmdD = ExecOutcome.exited c := by simp [runW, hav, hlg]
    simp [DeployPy.run_command, hW, DeployPy.MainOut.exitCode,
      DeployPy.exit_code, Except.map]
  · intro hav
    have hW1 : runW w psCmdD = ExecOutcome.notFound := by simp [runW, hav]
    have hW2 : runW w logsCmdD = ExecOutcome.notFound := by simp [runW, hav]
    simp [DeployPy.run_command, hW1, hW2, DeployPy.MainOut.exitCode,
      DeployPy.exit_code, Except.map]

/-- Witness for C8. -/
theorem C8_witness :
    (DeployPy.main ["status"] w7).exitCode = 0 ∧
    (DeployPy.main ["logs"] w7).exitCode = 0 ∧
    (DeployPy.main ["status"] wNoTool).exitCode = 1 :=
  ⟨((C8_status_logs_ignore_child_exit w7).1 7 (by decide) (by decide)).2,
   ((C8_status_logs_ignore_child_exit w7).2.1 7 (by decide) (by decide)).2,
   ((C8_status_logs_ignore_child_exit wNoTool).2.2 (by decide)).2.1⟩

/-- C2 counterexample: with the child exiting 2, up fails as
CommandFailed but the wrapper exits 1, not 2 - the child's exit code is
not preserved; and the logs action with the same child exit 2 raises no
CommandFailed at all and the wrapper exits 0. -/
theorem C2_counterexample :
    (DeployPy.main ["up"] w2).outcome =
      DeployPy.MainOutcome.ran
        (Except.error (DeployPy.TopError.commandFailed upCmdD)) ∧
    (DeployPy.main ["up"] w2).exitCode = 1 ∧
    (DeployPy.main ["up"] w2).exitCode ≠ 2 ∧
    (DeployPy.main ["logs"] w2).outcome =
      DeployPy.MainOutcome.ran (Except.ok ()) ∧
    (DeployPy.main ["logs"] w2).exitCode = 0 := by
  refine ⟨by decide, by decide, by decide, by decide, by decide⟩

/-- C2 amended: in `src/deploy.py`, a missing tool binary yields the
ToolUnavailable error kind for every action, while a non-zero child exit
yields the distinct CommandFailed kind for up, down and restart; both
kinds are reported on stderr and both exit with the fixed code 1 - the
child's exit code is never preserved as the wrapper's.  The scripts
variant likewise maps both failure kinds to exit code 1. -/
theorem C2_error_kinds (w : World) :
    (∀ c, c ≠ 0 → w.available = true → w.outcome upCmdD = ExecEvent.exited c →
      (DeployPy.main ["up"] w).outcome =
        DeployPy.MainOutcome.ran
          (Except.error (DeployPy.TopError.commandFailed upCmdD)) ∧
      (DeployPy.main ["up"] w).exitCode = 1 ∧
      (DeployPy.main ["up"] w).stderrLines ≠ []) ∧
    (w.available = false →
      (DeployPy.main ["up"] w).outcome =
        DeployPy.MainOutcome.ran
          (Except.error DeployPy.TopError.toolUnavailable) ∧
      (DeployPy.main ["up"] w).exitCode = 1 ∧
      (DeployPy.main ["up"] w).stderrLines ≠ []) ∧
    (∀ c, c ≠ 0 → w.available = true → w.outcome downCmdD = ExecEvent.exited c →
      (DeployPy.main ["down"] w).outcome =
        DeployPy.MainOutcome.ran
          (Except.error (DeployPy.TopError.commandFailed downCmdD)) ∧
      (DeployPy.main ["down"] w).exitCode = 1) ∧
    (∀ c, c ≠ 0 → w.available = true →
      w.outcome restartCmdD = ExecEvent.exited c →
      (DeployPy.main ["restart"] w).outcome =
        DeployPy.MainOutcome.ran
          (Except.error (DeployPy.TopError.commandFailed restartCmdD)) ∧
      (DeployPy.main ["restart"] w).exitCode = 1) ∧
    (∀ cmd, DeployPy.TopError.toolUnavailable ≠
      DeployPy.TopError.commandFailed cmd) ∧
    (w.available = false → (ScriptsPy.main ["up"] w).outcome = Except.ok 1) ∧
    (∀ c, c ≠ 0 → w.available = true → w.outcome sUpCmdD = ExecEvent.exited c →
      (ScriptsPy.main ["up"] w).outcome = Except.ok 1) := by
  refine ⟨?_, ?_, ?_, ?_, ?_, ?_, ?_⟩
  · intro c hc hav hu
    have hW : runW w upCmdD = ExecOutcome.exited c := by simp [runW, hav, hu]
    rw [main_up_unfold, up_cases]
    simp [DeployPy.run_command, hW, hc, DeployPy.MainOut.exitCode,
      DeployPy.exit_code, DeployPy.MainOut.stderrLines, DeployPy.stderr_of]
  · intro hav
    have hW : runW w upCmdD = ExecOutcome.notFound := by simp [runW, hav]
    rw [main_up_unfold, up_cases]
    simp [DeployPy.run_command, hW, DeployPy.MainOut.exitCode,
      DeployPy.exit_code, DeployPy.MainOut.stderrLines, DeployPy.stderr_of]
  · intro c hc hav hd
    have hW : runW w downCmdD = ExecOutcome.exited c := by simp [runW, hav, hd]
    rw [main_down_unfold, down_cases]
    simp [DeployPy.run_command, hW, hc, DeployPy.MainOut.exitCode,
      DeployPy.exit_code]
  · intro c hc hav hr
    have hW : runW w restartCmdD = ExecOutcome.exited c := by
      simp [runW, hav, hr]
    rw [main_restart_unfold, restart_cases]
    simp [DeployPy.run_command, hW, hc, DeployPy.MainOut.exitCode,
      DeployPy.exit_code]
  · intro cmd h
    cases h
  · intro hav
    have hW : runW w sUpCmdD = ExecOutcome.notFound := by simp [runW, hav]
    rw [s_main_up_unfold, s_up_cases]
    simp [ScriptsPy.run_command, hW, Except.map]
  · intro c hc hav hu
    have hW : runW w sUpCmdD = ExecOutcome.exited c := by simp [runW, hav, hu]
    rw [s_main_up_unfold, s_up_cases]
    simp [ScriptsPy.run_command, hW, hc, Except.map]

/-- Witness for C2 amended. -/
theorem C2_error_kinds_witness :
    (DeployPy.main ["up"] w2).exitCode = 1 ∧
    (DeployPy.main ["up"] wNoTool).exitCode = 1 ∧
    (ScriptsPy.main ["up"] wNoTool).outcome = Except.ok 1 :=
  ⟨((C2_error_kinds w2).1 2 (by decide) (by decide) (by decide)).2.1,
   ((C2_error_kinds wNoTool).2.1 (by decide)).2.1,
   (C2_error_kinds wNoTool).2.2.2.2.2.1 (by decide)⟩

/-- C6: the wrapper exits 0 on success, 1 on failure (command failed,
tool missing, or unexpected error) and 130 on a user interrupt
(`src/deploy.py`); the scripts variant exits 0 on success and 1 on
failure. -/
theorem C6_exit_codes (w : World) :
    (w.available = true → w.outcome upCmdD = ExecEvent.exited 0 →
      (∃ c, w.outcome psCmdD = ExecEvent.exited c) →
      (DeployPy.main ["up"] w).exitCode = 0) ∧
    (∀ c, c ≠ 0 → w.available = true → w.outcome upCmdD = ExecEvent.exited c →
      (DeployPy.main ["up"] w).exitCode = 1) ∧
    (w.available = false → (DeployPy.main ["up"] w).exitCode = 1) ∧
    (w.available = true → w.outcome upCmdD = ExecEvent.interrupted →
      (DeployPy.main ["up"] w).exitCode = 130) ∧
    (w.available = true → w.outcome upCmdD = ExecEvent.raisedOther →
      (DeployPy.main ["up"] w).exitCode = 1) ∧
    (∀ argv a n, ScriptsPy.parse_args argv [] false false = Except.ok a →
      (ScriptsPy.main argv w).outcome = Except.ok n → n = 0 ∨ n = 1) := by
  refine ⟨?_, ?_, ?_, ?_, ?_, ?_⟩
  · rintro hav hu ⟨c, hps⟩
    have hW : runW w upCmdD = ExecOutcome.exited 0 := by simp [runW, hav, hu]
    have hpsW : runW w psCmdD = ExecOutcome.exited c := by
      simp [runW, hav, hps]
    rw [main_up_unfold, up_cases, status_cases]
    simp [DeployPy.run_command, hW, hpsW, DeployPy.MainOut.exitCode,
      DeployPy.exit_code, Except.map]
  · intro c hc hav hu
    have hW : runW w upCmdD = ExecOutcome.exited c := by simp [runW, hav, hu]
    rw [main_up_unfold, up_cases]
    simp [DeployPy.run_command, hW, hc, DeployPy.MainOut.exitCode,
      DeployPy.exit_code]
  · intro hav
    have hW : runW w upCmdD = ExecOutcome.notFound := by simp [runW, hav]
    rw [main_up_unfold, up_cases]
    simp [DeployPy.run_command, hW, DeployPy.MainOut.exitCode,
      DeployPy.exit_code]
  · intro hav hu
    have hW : runW w upCmdD = ExecOutcome.interrupted := by simp [runW, hav, hu]
    rw [main_up_unfold, up_cases]
    simp [DeployPy.run_command, hW, DeployPy.MainOut.exitCode,
      DeployPy.exit_code]
  · intro hav hu
    have hW : runW w upCmdD = ExecOutcome.raisedOther := by simp [runW, hav, hu]
    rw [main_up_unfold, up_cases]
    simp [DeployPy.run_command, hW, DeployPy.MainOut.exitCode,
      DeployPy.exit_code]
  · intro argv a n hp ho
    simp only [ScriptsPy.main, hp] at ho
    rcases hrun : (ScriptsPy.dispatch w a).2 with e | b
    · rw [hrun] at ho; simp [Except.map] at ho
    · rw [hrun] at ho
      cases b
      · simp [Except.map] at ho; right; omega
      · simp [Except.map] at ho; left; omega


/-- Witness for C6: success exits 0, interrupt exits 130, missing tool
exits 1. -/
theorem C6_witness :
    (DeployPy.main ["up"] w0).exitCode = 0 ∧
    (DeployPy.main ["up"] wStop).exitCode = 130 ∧
    (DeployPy.main ["up"] wNoTool).exitCode = 1 :=
  ⟨(C6_exit_codes w0).1 (by decide) (by decide) ⟨0, by decide⟩,
   (C6_exit_codes wStop).2.2.2.1 (by decide) (by decide),
   (C6_exit_codes wNoTool).2.2.1 (by decide)⟩


lemma not_dash_ne {s : String} (h : ¬ dash_leading s = true) :
    s ≠ "-v" ∧ s ≠ "--volumes" ∧ s ≠ "--follow" ∧ s ≠ "--no-detach" ∧
    s ≠ "-f" := by
  refine ⟨?_, ?_, ?_, ?_, ?_⟩ <;> rintro rfl <;> exact h (by decide)

lemma parse_ok_inv (toks : List String) :
    ∀ (pos : List String) (file : String) (vol fol pending : Bool)
      (a : DeployPy.Args),
      DeployPy.parse_args toks pos file vol fol pending = Except.ok a →
      a.command ∈ DeployPy.choices ∧
      (a.volumes = true ↔ (vol = true ∨ "-v" ∈ toks ∨ "--volumes" ∈ toks)) ∧
      (a.follow = true ↔ (fol = true ∨ "--follow" ∈ toks)) ∧
      (dash_leading a.file = true → dash_leading file = true) := by
  induction toks with
  | nil =>
      intro pos file vol fol pending a h
      rcases pos with _ | ⟨p, _ | ⟨q, qs⟩⟩
      · simp [DeployPy.parse_args] at h
      · simp only [DeployPy.parse_args] at h
        split_ifs at h with hp hmem
        injection h with h2
        subst h2
        exact ⟨hmem, by simp, by simp, fun hd => hd⟩
      · simp [DeployPy.parse_args] at h
  | cons tok rest IH =>
      intro pos file vol fol pending a h
      simp only [DeployPy.parse_args] at h
      split_ifs at h with h1 h2 h3 h4 h5 h6 h7 h8
      · -- pending, non-option value token consumed as the file
        obtain ⟨hcmd, hvol, hfol, hfile⟩ := IH pos tok vol fol false a h
        obtain ⟨hv, hvv, hff, -, -⟩ := not_dash_ne h2
        refine ⟨hcmd, ?_, ?_, fun hd => absurd (hfile hd) h2⟩
        · rw [hvol]; simp [List.mem_cons, Ne.symm hv, Ne.symm hvv]
        · rw [hfol]; simp [List.mem_cons, Ne.symm hff]
      · -- -f / --file
        obtain ⟨hcmd, hvol, hfol, hfile⟩ := IH pos file vol fol true a h
        refine ⟨hcmd, ?_, ?_, hfile⟩
        · rw [hvol]; rcases h4 with rfl | rfl <;> simp [List.mem_cons]
        · rw [hfol]; rcases h4 with rfl | rfl <;> simp [List.mem_cons]
      · -- -v / --volumes
        obtain ⟨hcmd, hvol, hfol, hfile⟩ := IH pos file true fol false a h
        refine ⟨hcmd, ?_, ?_, hfile⟩
        · rw [hvol]; rcases h5 with rfl | rfl <;> simp [List.mem_cons]
        · rw [hfol]; rcases h5 with rfl | rfl <;> simp [List.mem_cons]
      · -- --follow
        subst h6
        obtain ⟨hcmd, hvol, hfol, hfile⟩ := IH pos file vol true false a h
        refine ⟨hcmd, ?_, ?_, hfile⟩
        · rw [hvol]; simp [List.mem_cons]
        · rw [hfol]; simp [List.mem_cons]
      · -- bare "-" positional
        subst h7
        obtain ⟨hcmd, hvol, hfol, hfile⟩ :=
          IH (pos ++ ["-"]) file vol fol false a h
        refine ⟨hcmd, ?_, ?_, hfile⟩
        · rw [hvol]; simp [List.mem_cons]
        · rw [hfol]; simp [List.mem_cons]
      · -- ordinary positional
        obtain ⟨hcmd, hvol, hfol, hfile⟩ :=
          IH (pos ++ [tok]) file vol fol false a h
        obtain ⟨hv, hvv, hff, -, -⟩ := not_dash_ne h8
        refine ⟨hcmd, ?_, ?_, hfile⟩
        · rw [hvol]; simp [List.mem_cons, Ne.symm hv, Ne.symm hvv]
        · rw [hfol]; simp [List.mem_cons, Ne.symm hff]

lemma s_parse_ok_inv (toks : List String) :
    ∀ (pos : List String) (nd fol : Bool) (a : ScriptsPy.SArgs),
      ScriptsPy.parse_args toks pos nd fol = Except.ok a →
      a.action ∈ ScriptsPy.s_choices ∧
      (a.no_detach = true ↔ (nd = true ∨ "--no-detach" ∈ toks)) ∧
      (a.follow = true ↔
        (fol = true ∨ "-f" ∈ toks ∨ "--follow" ∈ toks)) := by
  induction toks with
  | nil =>
      intro pos nd fol a h
      rcases pos with _ | ⟨p, _ | ⟨q, qs⟩⟩
      · simp [ScriptsPy.parse_args] at h
      · simp only [ScriptsPy.parse_args] at h
        split_ifs at h with hmem
        injection h with h2
        subst h2
        exact ⟨hmem, by simp, by simp⟩
      · simp [ScriptsPy.parse_args] at h
  | cons tok rest IH =>
      intro pos nd fol a h
      simp only [ScriptsPy.parse_args] at h
      split_ifs at h with h1 h2 h3 h4 h5
      · -- --no-detach
        subst h2
        obtain ⟨hcmd, hnd, hfol⟩ := IH pos true fol a h
        refine ⟨hcmd, ?_, ?_⟩
        · rw [hnd]; simp [List.mem_cons]
        · rw [hfol]; simp [List.mem_cons]
      · -- -f / --follow
        obtain ⟨hcmd, hnd, hfol⟩ := IH pos nd true a h
        refine ⟨hcmd, ?_, ?_⟩
        · rw [hnd]; rcases h3 with rfl | rfl <;> simp [List.mem_cons]
        · rw [hfol]; rcases h3 with rfl | rfl <;> simp [List.mem_cons]
      · -- bare "-" positional
        subst h4
        obtain ⟨hcmd, hnd, hfol⟩ := IH (pos ++ ["-"]) nd fol a h
        refine ⟨hcmd, ?_, ?_⟩
        · rw [hnd]; simp [List.mem_cons]
        · rw [hfol]; simp [List.mem_cons]
      · -- ordinary positional
        obtain ⟨hcmd, hnd, hfol⟩ := IH (pos ++ [tok]) nd fol a h
        obtain ⟨hv, hvv, hff, hndd, hf⟩ := not_dash_ne h5
        refine ⟨hcmd, ?_, ?_⟩
        · rw [hnd]; simp [List.mem_cons, Ne.symm hndd]
        · rw [hfol]; simp [List.mem_cons, Ne.symm hff, Ne.symm hf]



lemma main_ok_unfold (argv : List String) (w : World) {a : DeployPy.Args}
    (h : DeployPy.parse_args argv [] "docker-compose.yml" false false false =
      Except.ok a) :
    DeployPy.main argv w =
      ⟨(DeployPy.dispatch argv w a).1,
       DeployPy.MainOutcome.ran (DeployPy.dispatch argv w a).2⟩ := by
  simp [DeployPy.main, h]

lemma main_usage_unfold (argv : List String) (w : World)
    (h : DeployPy.parse_args argv [] "docker-compose.yml" false false false =
      Except.error ParseExit.usage) :
    DeployPy.main argv w = ⟨[], DeployPy.MainOutcome.usageError⟩ := by
  simp [DeployPy.main, h]

lemma main_help_unfold (argv : List String) (w : World)
    (h : DeployPy.parse_args argv [] "docker-compose.yml" false false false =
      Except.error ParseExit.help) :
    DeployPy.main argv w = ⟨[], DeployPy.MainOutcome.helpShown⟩ := by
  simp [DeployPy.main, h]

lemma s_main_ok_unfold (argv : List String) (w : World) {a : ScriptsPy.SArgs}
    (h : ScriptsPy.parse_args argv [] false false = Except.ok a) :
    ScriptsPy.main argv w =
      ⟨(ScriptsPy.dispatch w a).1,
       (ScriptsPy.dispatch w a).2.map
         fun success => if success then (0 : Int) else 1⟩ := by
  simp [ScriptsPy.main, h]

lemma s_main_usage_unfold (argv : List String) (w : World)
    (h : ScriptsPy.parse_args argv [] false false =
      Except.error ParseExit.usage) :
    ScriptsPy.main argv w = ⟨[], Except.ok 2⟩ := by
  simp [ScriptsPy.main, h]

lemma s_main_help_unfold (argv : List String) (w : World)
    (h : ScriptsPy.parse_args argv [] false false =
      Except.error ParseExit.help) :
    ScriptsPy.main argv w = ⟨[], Except.ok 0⟩ := by
  simp [ScriptsPy.main, h]

lemma dispatch_up_eq (argv : List String) (w : World) {a : DeployPy.Args}
    (ha : a.command = "up") :
    DeployPy.dispatch argv w a = DeployPy.DeployManager.up ⟨a.file⟩ w true := by
  simp [DeployPy.dispatch, ha]

lemma dispatch_down_eq (argv : List String) (w : World) {a : DeployPy.Args}
    (ha : a.command = "down") :
    DeployPy.dispatch argv w a =
      DeployPy.DeployManager.down ⟨a.file⟩ w a.volumes := by
  simp [DeployPy.dispatch, ha]

lemma dispatch_logs_eq (argv : List String) (w : World) {a : DeployPy.Args}
    (ha : a.command = "logs") :
    DeployPy.dispatch argv w a =
      DeployPy.DeployManager.logs ⟨a.file⟩ w (DeployPy.service_of argv)
        a.follow := by
  simp [DeployPy.dispatch, ha]

lemma s_dispatch_up_eq (w : World) {a : ScriptsPy.SArgs}
    (ha : a.action = "up") :
    ScriptsPy.dispatch w a = ScriptsPy.deploy_up w (!a.no_detach) := by
  simp [ScriptsPy.dispatch, ha]


lemma up_trace_head (m : DeployPy.DeployManager) (w : World) (d : Bool) :
    ∀ cmd ∈ (DeployPy.DeployManager.up m w d).1,
      cmd ≠ [] ∧ cmd.head? = some "docker" := by
  intro cmd hc
  simp only [DeployPy.DeployManager.up] at hc
  rcases hrc : DeployPy.run_command w
      (m.base_cmd ++ ["up"] ++ (if d then ["-d"] else [])) true with e | v
  · rw [hrc] at hc
    simp at hc
    subst hc
    constructor <;> simp [DeployPy.DeployManager.base_cmd]
  · rw [hrc] at hc
    simp [DeployPy.DeployManager.status] at hc
    rcases hc with rfl | rfl
    · constructor <;> simp [DeployPy.DeployManager.base_cmd]
    · constructor <;> simp [DeployPy.DeployManager.base_cmd]

lemma restart_trace_head (m : DeployPy.DeployManager) (w : World) :
    ∀ cmd ∈ (DeployPy.DeployManager.restart m w).1,
      cmd ≠ [] ∧ cmd.head? = some "docker" := by
  intro cmd hc
  simp only [DeployPy.DeployManager.restart] at hc
  rcases hrc : DeployPy.run_command w (m.base_cmd ++ ["restart"]) true
    with e | v
  · rw [hrc] at hc
    simp at hc
    subst hc
    constructor <;> simp [DeployPy.DeployManager.base_cmd]
  · rw [hrc] at hc
    simp [DeployPy.DeployManager.status] at hc
    rcases hc with rfl | rfl
    · constructor <;> simp [DeployPy.DeployManager.base_cmd]
    · constructor <;> simp [DeployPy.DeployManager.base_cmd]

lemma down_trace_head (m : DeployPy.DeployManager) (w : World) (v : Bool) :
    ∀ cmd ∈ (DeployPy.DeployManager.down m w v).1,
      cmd ≠ [] ∧ cmd.head? = some "docker" := by
  intro cmd hc
  simp only [DeployPy.DeployManager.down] at hc
  rcases hrc : DeployPy.run_command w
      (m.base_cmd ++ ["down"] ++ (if v then ["-v"] else [])) true with e | u
  · rw [hrc] at hc
    simp at hc
    subst hc
    constructor <;> simp [DeployPy.DeployManager.base_cmd]
  · rw [hrc] at hc
    simp at hc
    subst hc
    constructor <;> simp [DeployPy.DeployManager.base_cmd]

lemma status_trace_head (m : DeployPy.DeployManager) (w : World) :
    ∀ cmd ∈ (DeployPy.DeployManager.status m w).1,
      cmd ≠ [] ∧ cmd.head? = some "docker" := by
  intro cmd hc
  simp [DeployPy.DeployManager.status] at hc
  subst hc
  constructor <;> simp [DeployPy.DeployManager.base_cmd]

lemma logs_trace_head (m : DeployPy.DeployManager) (w : World)
    (svc : Option String) (fol : Bool) :
    ∀ cmd ∈ (DeployPy.DeployManager.logs m w svc fol).1,
      cmd ≠ [] ∧ cmd.head? = some "docker" := by
  intro cmd hc
  simp [DeployPy.DeployManager.logs] at hc
  subst hc
  constructor <;> simp [DeployPy.DeployManager.base_cmd]

lemma dispatch_trace_head (argv : List String) (w : World)
    (a : DeployPy.Args) :
    ∀ cmd ∈ (DeployPy.dispatch argv w a).1,
      cmd ≠ [] ∧ cmd.head? = some "docker" := by
  intro cmd hc
  simp only [DeployPy.dispatch] at hc
  split_ifs at hc with h1 h2 h3 h4 h5
  · exact up_trace_head _ _ _ cmd hc
  · exact down_trace_head _ _ _ cmd hc
  · exact restart_trace_head _ _ cmd hc
  · exact status_trace_head _ _ cmd hc
  · exact logs_trace_head _ _ _ _ cmd hc
  · simp at hc

lemma s_dispatch_trace_head (w : World) (a : ScriptsPy.SArgs) :
    ∀ cmd ∈ (ScriptsPy.dispatch w a).1,
      cmd ≠ [] ∧ cmd.head? = some "docker" := by
  intro cmd hc
  simp only [ScriptsPy.dispatch, ScriptsPy.deploy_up, ScriptsPy.deploy_down,
    ScriptsPy.deploy_status, ScriptsPy.deploy_logs] at hc
  split_ifs at hc <;> simp at hc <;> subst hc <;>
    exact ⟨by simp, by simp⟩

lemma exit_code_nonneg (o : DeployPy.MainOutcome) :
    0 ≤ DeployPy.exit_code o := by
  rcases o with _ | _ | r
  · decide
  · decide
  · rcases r with e | u
    · rcases e with _ | cmd | _ | _ <;> simp [DeployPy.exit_code]
    · simp [DeployPy.exit_code]

/-- C10: every invocation either wrapper constructs is a non-empty token
list beginning with the tool name, and the wrapper exit code derived
from the child's status is non-negative. -/
theorem C10_invariants (argv : List String) (w : World) :
    (∀ cmd ∈ (DeployPy.main argv w).trace,
      cmd ≠ [] ∧ cmd.head? = some "docker") ∧
    0 ≤ (DeployPy.main argv w).exitCode ∧
    (∀ cmd ∈ (ScriptsPy.main argv w).trace,
      cmd ≠ [] ∧ cmd.head? = some "docker") ∧
    (∀ n, (ScriptsPy.main argv w).outcome = Except.ok n → 0 ≤ n) := by
  refine ⟨?_, ?_, ?_, ?_⟩
  · rcases hp : DeployPy.parse_args argv [] "docker-compose.yml" false false
        false with e | a
    · rcases e
      · rw [main_usage_unfold argv w hp]
        intro cmd hc
        simp at hc
      · rw [main_help_unfold argv w hp]
        intro cmd hc
        simp at hc
    · rw [main_ok_unfold argv w hp]
      exact dispatch_trace_head argv w a
  · rw [DeployPy.MainOut.exitCode]
    exact exit_code_nonneg _
  · rcases hp : ScriptsPy.parse_args argv [] false false with e | a
    · rcases e
      · rw [s_main_usage_unfold argv w hp]
        intro cmd hc
        simp at hc
      · rw [s_main_help_unfold argv w hp]
        intro cmd hc
        simp at hc
    · rw [s_main_ok_unfold argv w hp]
      exact s_dispatch_trace_head w a
  · intro n hn
    rcases hp : ScriptsPy.parse_args argv [] false false with e | a
    · rcases e
      · rw [s_main_usage_unfold argv w hp] at hn
        simp at hn
        omega
      · rw [s_main_help_unfold argv w hp] at hn
        simp at hn
        omega
    · rw [s_main_ok_unfold argv w hp] at hn
      rcases hrun : (ScriptsPy.dispatch w a).2 with e | b
      · rw [hrun] at hn
        simp [Except.map] at hn
      · rw [hrun] at hn
        cases b
        · simp [Except.map] at hn
          omega
        · simp [Except.map] at hn
          omega

/-- Witness for C10: a concrete invocation and exit code observed. -/
theorem C10_witness :
    (upCmdD ≠ [] ∧ upCmdD.head? = some "docker") ∧
    0 ≤ (DeployPy.main ["up"] w0).exitCode :=
  ⟨(C10_invariants ["up"] w0).1 upCmdD (by decide),
   (C10_invariants ["up"] w0).2.1⟩


/-- C7: an unrecognized action fails parsing with a usage error before
any external process is spawned. -/
theorem C7_unrecognized_action (argv : List String) (w : World) :
    (DeployPy.parse_args argv [] "docker-compose.yml" false false false =
        Except.error ParseExit.usage →
      (DeployPy.main argv w).trace = [] ∧
      (DeployPy.main argv w).exitCode = 2) ∧
    (∀ a, DeployPy.parse_args argv [] "docker-compose.yml" false false false =
        Except.ok a → a.command ∈ DeployPy.choices) ∧
    (ScriptsPy.parse_args argv [] false false = Except.error ParseExit.usage →
      (ScriptsPy.main argv w).trace = [] ∧
      (ScriptsPy.main argv w).outcome = Except.ok 2) ∧
    (∀ a, ScriptsPy.parse_args argv [] false false = Except.ok a →
      a.action ∈ ScriptsPy.s_choices ∧ a.action ∈ DeployPy.choices) := by
  refine ⟨?_, ?_, ?_, ?_⟩
  · intro h
    rw [main_usage_unfold argv w h]
    exact ⟨rfl, rfl⟩
  · intro a h
    exact (parse_ok_inv argv [] "docker-compose.yml" false false false a h).1
  · intro h
    rw [s_main_usage_unfold argv w h]
    exact ⟨rfl, rfl⟩
  · intro a h
    have hs := (s_parse_ok_inv argv [] false false a h).1
    refine ⟨hs, ?_⟩
    simp [ScriptsPy.s_choices] at hs
    rcases hs with h1 | h1 | h1 | h1 <;> rw [h1] <;> decide

/-- Witness for C7: a made-up action is rejected with no spawn. -/
theorem C7_witness :
    (DeployPy.main ["frobnicate"] w0).trace = [] ∧
    (DeployPy.main ["frobnicate"] w0).exitCode = 2 ∧
    (ScriptsPy.main ["frobnicate"] w0).trace = [] :=
  ⟨((C7_unrecognized_action ["frobnicate"] w0).1 (by decide)).1,
   ((C7_unrecognized_action ["frobnicate"] w0).1 (by decide)).2,
   ((C7_unrecognized_action ["frobnicate"] w0).2.2.1 (by decide)).1⟩

/-- C3: the up invocation includes the detached-mode token `-d` iff
`--no-detach` was absent from the command line (`src/scripts/deploy.py`,
where the flag exists); `src/deploy.py`'s up invocation always carries
`-d`. -/
theorem C3_up_detach_flag (argv : List String) (w : World)
    (a : ScriptsPy.SArgs)
    (h : ScriptsPy.parse_args argv [] false false = Except.ok a)
    (ha : a.action = "up") :
    (ScriptsPy.main argv w).trace =
      [["docker", "compose", "up"] ++
        (if "--no-detach" ∈ argv then [] else ["-d"])] ∧
    ("-d" ∈ (["docker", "compose", "up"] ++
        (if "--no-detach" ∈ argv then [] else ["-d"])) ↔
      "--no-detach" ∉ argv) ∧
    ((DeployPy.main ["up"] w).trace.head? = some upCmdD ∧ "-d" ∈ upCmdD) := by
  have hnd := (s_parse_ok_inv argv [] false false a h).2.1
  refine ⟨?_, ?_, ?_⟩
  · rw [s_main_ok_unfold argv w h, s_dispatch_up_eq w ha]
    by_cases hm : "--no-detach" ∈ argv
    · have hd : a.no_detach = true := hnd.mpr (Or.inr hm)
      simp [ScriptsPy.deploy_up, hd, hm]
    · have hd : a.no_detach = false := by
        cases hh : a.no_detach
        · rfl
        · rcases hnd.mp hh with h' | h'
          · simp at h'
          · exact absurd h' hm
      simp [ScriptsPy.deploy_up, hd, hm]
  · by_cases hm : "--no-detach" ∈ argv
    · simp [hm]
    · simp [hm]
  · constructor
    · rw [main_up_unfold w, up_cases w]
      rcases hrc : DeployPy.run_command w upCmdD true with e | v <;>
        simp [hrc, status_cases]
    · decide

/-- Witness for C3: with and without --no-detach. -/
theorem C3_witness :
    (ScriptsPy.main ["up", "--no-detach"] w0).trace =
      [["docker", "compose", "up"]] ∧
    (ScriptsPy.main ["up"] w0).trace =
      [["docker", "compose", "up", "-d"]] := by
  have h1 := (C3_up_detach_flag ["up", "--no-detach"] w0 ⟨"up", true, false⟩
    (by decide) rfl).1
  have h2 := (C3_up_detach_flag ["up"] w0 ⟨"up", false, false⟩
    (by decide) rfl).1
  constructor
  · simpa using h1
  · simpa using h2

/-- C5: the down invocation of `src/deploy.py` includes the
volume-removal token `-v` iff `-v`/`--volumes` was passed on the command
line; the scripts variant's down invocation never carries `-v`. -/
theorem C5_down_volumes (argv : List String) (w : World) (a : DeployPy.Args)
    (h : DeployPy.parse_args argv [] "docker-compose.yml" false false false =
      Except.ok a)
    (ha : a.command = "down") :
    (DeployPy.main argv w).trace =
      [["docker", "compose", "-f", a.file, "down"] ++
        (if a.volumes then ["-v"] else [])] ∧
    ("-v" ∈ ((DeployPy.main argv w).trace.headD []) ↔
      ("-v" ∈ argv ∨ "--volumes" ∈ argv)) ∧
    (ScriptsPy.deploy_down w).1 = [["docker", "compose", "down"]] ∧
    "-v" ∉ (["docker", "compose", "down"] : List String) := by
  obtain ⟨-, hvol, -, hfile⟩ :=
    parse_ok_inv argv [] "docker-compose.yml" false false false a h
  have hvol' : a.volumes = true ↔ ("-v" ∈ argv ∨ "--volumes" ∈ argv) := by
    simpa using hvol
  have hndf : ¬ dash_leading a.file = true := fun hd =>
    absurd (hfile hd) (by decide)
  obtain ⟨hfv, -, -, -, -⟩ := not_dash_ne hndf
  have htr : (DeployPy.main argv w).trace =
      [["docker", "compose", "-f", a.file, "down"] ++
        (if a.volumes then ["-v"] else [])] := by
    rw [main_ok_unfold argv w h, dispatch_down_eq argv w ha]
    rcases hrc : DeployPy.run_command w
        (DeployPy.DeployManager.base_cmd ⟨a.file⟩ ++ ["down"] ++
          (if a.volumes then ["-v"] else [])) true with e | u <;>
      simp [DeployPy.DeployManager.down, DeployPy.DeployManager.base_cmd,
        hrc] <;>
      simp [DeployPy.DeployManager.base_cmd] at hrc <;>
      simp [hrc]
  refine ⟨htr, ?_, rfl, by decide⟩
  rw [htr]
  by_cases hv : a.volumes = true
  · simp only [hv, if_true, List.headD]
    constructor
    · intro _
      exact hvol'.mp hv
    · intro _
      simp
  · have hnarg : ¬("-v" ∈ argv ∨ "--volumes" ∈ argv) :=
      fun hr => hv (hvol'.mpr hr)
    simp [hv, Ne.symm hfv, hnarg]

/-- Witness for C5: down -v yields the -v token. -/
theorem C5_witness :
    (DeployPy.main ["down", "-v"] w0).trace =
      [["docker", "compose", "-f", "docker-compose.yml", "down", "-v"]] := by
  have := (C5_down_volumes ["down", "-v"] w0
    ⟨"down", "docker-compose.yml", true, false⟩ (by decide) rfl).1
  simpa using this

/-- C4 counterexample: logs backend --follow is a usage error in both
scripts, so no invocation ending in logs -f backend is produced. -/
theorem C4_counterexample :
    (DeployPy.main ["logs", "backend", "--follow"] w0).trace = [] ∧
    (DeployPy.main ["logs", "backend", "--follow"] w0).exitCode = 2 ∧
    (ScriptsPy.main ["logs", "backend", "--follow"] w0).trace = [] ∧
    (ScriptsPy.main ["logs", "backend", "--follow"] w0).outcome =
      Except.ok 2 :=
  ⟨by decide, by decide, by decide, by decide⟩

/-- C4 amended: the logs invocation of `src/deploy.py` carries `-f`
after `logs` iff `--follow` was parsed, and a trailing service token iff
the final-token heuristic produced one; a bare service name on the
command line is an unrecognized extra positional, so
`logs backend --follow` is a usage error in both scripts and no
invocation is issued. -/
theorem C4_logs_invocation (argv : List String) (w : World)
    (a : DeployPy.Args)
    (h : DeployPy.parse_args argv [] "docker-compose.yml" false false false =
      Except.ok a)
    (ha : a.command = "logs") :
    (DeployPy.main argv w).trace =
      [["docker", "compose", "-f", a.file, "logs"] ++
        (if a.follow then ["-f"] else []) ++
        (match DeployPy.service_of argv with
         | some s => if s = "" then [] else [s]
         | none => [])] ∧
    (a.follow = true ↔ "--follow" ∈ argv) ∧
    (DeployPy.parse_args ["logs", "backend", "--follow"] []
        "docker-compose.yml" false false false =
      Except.error ParseExit.usage) ∧
    (ScriptsPy.parse_args ["logs", "backend", "--follow"] [] false false =
      Except.error ParseExit.usage) := by
  obtain ⟨-, -, hfol, -⟩ :=
    parse_ok_inv argv [] "docker-compose.yml" false false false a h
  refine ⟨?_, by simpa using hfol, by decide, by decide⟩
  rw [main_ok_unfold argv w h, dispatch_logs_eq argv w ha]
  simp [DeployPy.DeployManager.logs, DeployPy.DeployManager.base_cmd]

/-- Witness for C4 amended: logs --follow yields the -f token. -/
theorem C4_witness :
    (DeployPy.main ["logs", "--follow"] w0).trace =
      [["docker", "compose", "-f", "docker-compose.yml", "logs", "-f"]] := by
  have := (C4_logs_invocation ["logs", "--follow"] w0
    ⟨"logs", "docker-compose.yml", false, true⟩ (by decide) rfl).1
  simpa using this

/-- C9: in `src/deploy.py`, the logs service filter is the final argv
token whenever more than two argv tokens (program name included) are
present and the final token has no leading dash; hence for
`logs -f backend` the token `backend` is used both as the compose-file
override and as the trailing service token. -/
theorem C9_service_heuristic (argv : List String) (w : World) (s : String) :
    (argv.length > 1 → argv.getLastD "" = s → dash_leading s = false →
      DeployPy.service_of argv = some s) ∧
    (DeployPy.main ["logs", "-f", "backend"] w).trace =
      [["docker", "compose", "-f", "backend", "logs", "backend"]] := by
  constructor
  · intro h1 h2 h3
    unfold DeployPy.service_of
    rw [if_pos h1]
    show (if dash_leading (argv.getLastD "") = true then none
      else some (argv.getLastD "")) = some s
    rw [h2, h3]
    simp
  · rfl

/-- Witness for C9. -/
theorem C9_witness :
    DeployPy.service_of ["logs", "-f", "backend"] = some "backend" :=
  (C9_service_heuristic ["logs", "-f", "backend"] w0 "backend").1
    (by decide) (by decide) (by decide)

end ConvexPoc
